import Mathlib

/-!
Shallow embedding of the core comparison engine of `src/main.py`
(class `DatabaseComparator` of the MySQL database comparison tool).

The three stages are modelled as pure functions:
 * `schema_report`      — `compare_schemas` (table-set diffing, lines 162-233);
 * `compare_columns`    — `compare_columns` (column diffing, lines 235-363);
 * `compare_row_data`   — `compare_row_data` (row/cell diffing, lines 365-501).

I/O collaborators (metadata queries, row fetches) are modelled by an
environment `Env` of functions returning `Option`/lists, mirroring the
Python helpers which return `None` / `[]` on query errors.  Console
`print` output that carries warning/skip information is modelled as a
second `List String` component ("logs") of each stage's result.

The loops `for table in common_tables` iterate a Python `set`; the
iteration order of that set is not a function of its contents (it
depends on the process hash seed), so the table processing order is an
explicit `List String` parameter of the column and row stages.
-/

/-- One row of `SHOW COLUMNS`: the column descriptor dictionary with keys
`Field`, `Type`, `Null`, `Key`, `Default` (nullable) and `Extra`. -/
structure Col where
  field : String
  type : String
  null : String
  key : String
  default : Option String
  extra : String
deriving DecidableEq, Repr

/-- Python `str(...)` applied to a `Default` value: `str(None) = "None"`,
a string renders as itself (line 320 compares `str(col1['Default'])`
with `str(col2['Default'])`, and the f-string on line 321 renders the
raw values the same way). -/
def strDefault : Option String → String
  | none => "None"
  | some s => s

/-- `{col['Field']: col for col in cols}` followed by `.get`: a later
duplicate of a field name overwrites an earlier one (lines 261-262). -/
def colDict (cols : List Col) : String → Option Col :=
  fun c => cols.foldl (fun acc col => if col.field = c then some col else acc) none

/-- The list `differences` built for a column present on both instances
(lines 313-323): one `name(v1 vs v2)` entry per differing attribute, in
the fixed order Type, Null, Key, Default, Extra; `Default` is compared
after `str(...)` conversion. -/
def columnDifferences (c1 c2 : Col) : List String :=
  (if c1.type ≠ c2.type then ["Type(" ++ c1.type ++ " vs " ++ c2.type ++ ")"] else [])
    ++ (if c1.null ≠ c2.null then ["Null(" ++ c1.null ++ " vs " ++ c2.null ++ ")"] else [])
    ++ (if c1.key ≠ c2.key then ["Key(" ++ c1.key ++ " vs " ++ c2.key ++ ")"] else [])
    ++ (if strDefault c1.default ≠ strDefault c2.default then
          ["Default(" ++ strDefault c1.default ++ " vs " ++ strDefault c2.default ++ ")"]
        else [])
    ++ (if c1.extra ≠ c2.extra then ["Extra(" ++ c1.extra ++ " vs " ++ c2.extra ++ ")"] else [])

/-- One entry of `table_column_report` / `column_reports`
(`ColumnDifference` in the spec's data model).  `Default` cells hold the
raw dictionary value (`None` or a string); on a missing side the Python
code stores the string `"N/A"`. -/
structure ColumnRecord where
  table : String
  column : String
  status : String
  type1 : String
  null1 : String
  key1 : String
  default1 : Option String
  extra1 : String
  type2 : String
  null2 : String
  key2 : String
  default2 : Option String
  extra2 : String
  difference : String
deriving DecidableEq, Repr

/-- Record for a column present only on instance 1 (lines 276-291). -/
def colOnly1Record (t c : String) (c1 : Col) : ColumnRecord :=
  { table := t, column := c, status := "Only in Instance 1",
    type1 := c1.type, null1 := c1.null, key1 := c1.key,
    default1 := c1.default, extra1 := c1.extra,
    type2 := "N/A", null2 := "N/A", key2 := "N/A",
    default2 := some "N/A", extra2 := "N/A",
    difference := "Column missing in Instance 2" }

/-- Record for a column present only on instance 2 (lines 294-309). -/
def colOnly2Record (t c : String) (c2 : Col) : ColumnRecord :=
  { table := t, column := c, status := "Only in Instance 2",
    type1 := "N/A", null1 := "N/A", key1 := "N/A",
    default1 := some "N/A", extra1 := "N/A",
    type2 := c2.type, null2 := c2.null, key2 := c2.key,
    default2 := c2.default, extra2 := c2.extra,
    difference := "Column missing in Instance 1" }

/-- Record for a column present on both instances with at least one
differing attribute (lines 326-341); the `Difference` cell joins the
aspect strings with `", "`. -/
def colDiffRecord (t c : String) (c1 c2 : Col) : ColumnRecord :=
  { table := t, column := c, status := "Different",
    type1 := c1.type, null1 := c1.null, key1 := c1.key,
    default1 := c1.default, extra1 := c1.extra,
    type2 := c2.type, null2 := c2.null, key2 := c2.key,
    default2 := c2.default, extra2 := c2.extra,
    difference := String.intercalate ", " (columnDifferences c1 c2) }

/-- Records contributed by one column name of the sorted union
(lines 270-342): the branch on `col1`/`col2` presence. -/
def compareColumn (t c : String) : Option Col → Option Col → List ColumnRecord
  | some c1, none => [colOnly1Record t c c1]
  | none, some c2 => [colOnly2Record t c c2]
  | some c1, some c2 =>
      if columnDifferences c1 c2 = [] then [] else [colDiffRecord t c c1 c2]
  | none, none => []

/-- `table_column_report` for one common table (lines 260-342): iterate
the union of the two column-name sets (a set, hence deduplicated) in
alphabetical order and compare each column. -/
def table_column_report (t : String) (cols1 cols2 : List Col) : List ColumnRecord :=
  let d1 := colDict cols1
  let d2 := colDict cols2
  let all_columns :=
    List.insertionSort (· ≤ ·) ((cols1.map Col.field ++ cols2.map Col.field).dedup)
  all_columns.flatMap (fun c => compareColumn t c (d1 c) (d2 c))

/-- `tables1 - tables2` (line 187). -/
def only_in_instance1 (tables1 tables2 : Finset String) : Finset String :=
  tables1 \ tables2

/-- `tables2 - tables1` (line 188). -/
def only_in_instance2 (tables1 tables2 : Finset String) : Finset String :=
  tables2 \ tables1

/-- `tables1 & tables2` (line 189). -/
def common_tables (tables1 tables2 : Finset String) : Finset String :=
  tables1 ∩ tables2

/-- One entry of `schema_report` (`TableDifference` in the spec's data
model): table name, presence on each instance, difference text. -/
structure TableRecord where
  table : String
  inst1 : String
  inst2 : String
  difference : String
deriving DecidableEq, Repr

/-- Record for a table present only on instance 1 (lines 195-201). -/
def tableOnly1Record (t : String) : TableRecord :=
  ⟨t, "Present", "Missing", "Table missing in Instance 2"⟩

/-- Record for a table present only on instance 2 (lines 204-210). -/
def tableOnly2Record (t : String) : TableRecord :=
  ⟨t, "Missing", "Present", "Table missing in Instance 1"⟩

/-- Record for a table present on both instances (lines 213-219). -/
def tableCommonRecord (t : String) : TableRecord :=
  ⟨t, "Present", "Present", "None"⟩

/-- The record sequence built by `compare_schemas` (lines 178-230):
only-in-1 tables sorted, then only-in-2 sorted, then common sorted;
when both instances report no tables the method returns early with no
records (lines 182-184). -/
def schema_report (tables1 tables2 : Finset String) : List TableRecord :=
  if tables1 = ∅ ∧ tables2 = ∅ then []
  else
    ((only_in_instance1 tables1 tables2).sort (· ≤ ·)).map tableOnly1Record
      ++ ((only_in_instance2 tables1 tables2).sort (· ≤ ·)).map tableOnly2Record
      ++ ((common_tables tables1 tables2).sort (· ≤ ·)).map tableCommonRecord

/-- A cell value as fetched into a pandas frame: SQL NULL / NaN, an
integer, or a string.  `vnull` models the frame's null (NaN/None). -/
inductive Value where
  | vnull : Value
  | vint : Int → Value
  | vstr : String → Value
deriving DecidableEq, Repr

/-- Python `str(...)` rendering of a cell value (`str(float('nan'))` is
`"nan"`). -/
def strVal : Value → String
  | .vnull => "nan"
  | .vint n => toString n
  | .vstr s => s

/-- `pd.isna` on a cell value. -/
def isna : Value → Bool
  | .vnull => true
  | _ => false

/-- Python/pandas `==` on two cell values: NaN compares unequal to
itself, otherwise structural equality (line 464 `val1 == val2`). -/
def pyEq : Value → Value → Bool
  | .vnull, .vnull => false
  | v1, v2 => v1 == v2

/-- One fetched row: association of column names to values
(`RowSnapshot` in the spec's data model). -/
abbrev Row := List (String × Value)

/-- Value of a column within a row; a missing column reads as null. -/
def rowGet (r : Row) (c : String) : Value :=
  match r.find? (fun p => p.1 == c) with
  | some p => p.2
  | none => Value.vnull

/-- Result of `pd.read_sql` for one table: column names in schema order
plus the row list. -/
structure DataFrame where
  cols : List String
  rows : List Row
deriving DecidableEq, Repr

/-- The primary-key tuple of a row (`RowKey` in the spec's data model):
the row's values at the primary-key columns, in declared order. -/
def rowKey (pk : List String) (r : Row) : List Value :=
  pk.map (rowGet r)

/-- `format_pk` (lines 503-525) on a sequence of key values:
`", ".join(str(v) for v in values)`. -/
def format_pk (vals : List Value) : String :=
  String.intercalate ", " (vals.map strVal)

/-- One entry of `table_data_report` / `data_reports` (`RowDifference`
in the spec's data model). -/
structure RowRecord where
  table : String
  primaryKey : String
  status : String
  column : String
  value1 : String
  value2 : String
  difference : String
deriving DecidableEq, Repr

/-- Record for a row present only on instance 1 (lines 432-441). -/
def rowOnly1Record (t : String) (pkv : List Value) : RowRecord :=
  ⟨t, format_pk pkv, "Only in Instance 1", "ALL", "Exists", "Missing",
    "Row missing in Instance 2"⟩

/-- Record for a row present only on instance 2 (lines 445-454). -/
def rowOnly2Record (t : String) (pkv : List Value) : RowRecord :=
  ⟨t, format_pk pkv, "Only in Instance 2", "ALL", "Missing", "Exists",
    "Row missing in Instance 1"⟩

/-- Record for a matched row whose value in column `c` differs
(lines 467-475). -/
def rowDiffRecord (t : String) (pkv : List Value) (c : String) (v1 v2 : Value) : RowRecord :=
  ⟨t, format_pk pkv, "Different Values", c, strVal v1, strVal v2,
    "Different values (" ++ strVal v1 ++ " vs " ++ strVal v2 ++ ")"⟩

/-- `data_columns` (line 414): instance 1's columns that are not
primary-key columns, in instance 1's schema order. -/
def dataColumns (pk : List String) (df1 : DataFrame) : List String :=
  df1.cols.filter (fun c => !pk.contains c)

/-- The per-cell emission test of lines 420-423 and 464: a cell pair is
reported when the values compare unequal and are not both null. -/
def cellDiffers (v1 v2 : Value) : Bool :=
  !pyEq v1 v2 && !(isna v1 && isna v2)

/-- Keys of `dfa` absent from `dfb`: the `left_only` (resp.
`right_only`) classification of the outer merge (lines 409-410). -/
def onlyRows (pk : List String) (dfa dfb : DataFrame) : List Row :=
  dfa.rows.filter (fun r => !(dfb.rows.any (fun r2 => rowKey pk r2 == rowKey pk r)))

/-- The `both` classification of the outer merge (line 411): each row of
instance 1 paired with the instance-2 row holding the same key.  Primary
keys are unique per side, so pairing each left row with the first
matching right row is the merge's matched set. -/
def matchedPairs (pk : List String) (df1 df2 : DataFrame) : List (Row × Row) :=
  df1.rows.filterMap (fun r1 =>
    (df2.rows.find? (fun r2 => rowKey pk r2 == rowKey pk r1)).map (fun r2 => (r1, r2)))

/-- Records emitted for one matched row pair (lines 458-476): every
non-primary-key column whose cell pair differs yields one record under
that row's key. -/
def matchedRowRecords (t : String) (pk : List String) (dcols : List String)
    (pr : Row × Row) : List RowRecord :=
  dcols.filterMap (fun c =>
    if cellDiffers (rowGet pr.1 c) (rowGet pr.2 c) then
      some (rowDiffRecord t (rowKey pk pr.1) c (rowGet pr.1 c) (rowGet pr.2 c))
    else none)

/-- `pd.merge(df1, df2, on=pk_columns, how='outer', ...)` raises when a
join key is missing from either frame; the later accesses
`in_both[f"\x7bcol\x7d_1"]` / `row[f"\x7bcol\x7d_2"]` raise when a non-key
column of instance 1 is absent from instance 2 (the suffixes only rename
overlapping names); and `in_both[diff_mask]` raises when `data_columns`
is empty, because `diff_mask` is then the scalar `False`.  Any of these
exceptions is caught by the per-table handler (lines 485-487).
`mergeOk` is the condition under which none of them occurs. -/
def mergeOk (pk : List String) (df1 df2 : DataFrame) : Bool :=
  pk.all (fun c => df1.cols.contains c) && pk.all (fun c => df2.cols.contains c)
    && (dataColumns pk df1).all (fun c => df2.cols.contains c)
    && !(dataColumns pk df1).isEmpty

/-- The row-level records produced for one table (lines 399-476): rows
only on instance 1, then rows only on instance 2, then per-matched-row
cell differences; `none` when the comparison raised and the table was
skipped by the handler of lines 485-487.  Within each block the source
order of the frames is kept (no claim depends on the within-block
permutation, which pandas chooses by sorting the outer-join keys). -/
def compare_table_rows (t : String) (pk : List String) (df1 df2 : DataFrame) :
    Option (List RowRecord) :=
  if mergeOk pk df1 df2 then
    some ((onlyRows pk df1 df2).map (fun r => rowOnly1Record t (rowKey pk r))
      ++ (onlyRows pk df2 df1).map (fun r => rowOnly2Record t (rowKey pk r))
      ++ (matchedPairs pk df1 df2).flatMap (matchedRowRecords t pk (dataColumns pk df1)))
  else none

/-- The I/O collaborators of one run, as pure oracles: `get_table_schema`
on each connection (`none` models a query error, line 110),
`get_primary_keys` on each connection (`[]` models both "no primary key"
and a query error, line 139), and `get_table_data` on each connection
(`none` models a query error, line 160).  The comparator only ever calls
`get_primary_keys` on connection 1 (line 385); `pk2` records what
connection 2 would have answered. -/
structure Env where
  schema1 : String → Option (List Col)
  schema2 : String → Option (List Col)
  pk1 : String → List String
  pk2 : String → List String
  rows1 : String → Option DataFrame
  rows2 : String → Option DataFrame

/-- One iteration of the `for table in common_tables` loop of
`compare_columns` (lines 249-342): the records contributed for this
table, plus the console messages that signal a skip. -/
def column_compare_table (env : Env) (t : String) : List ColumnRecord × List String :=
  match env.schema1 t, env.schema2 t with
  | some cols1, some cols2 => (table_column_report t cols1 cols2, [])
  | _, _ =>
      ([], ["Skipping column comparison for table " ++ t ++ " due to previous errors"])

/-- `compare_columns` (lines 235-363) over an explicit processing order
of the common tables: concatenated per-table records and skip messages.
(`column_reports.extend` runs only when the table has differences, but
an empty per-table report extends the list by nothing either way.) -/
def compare_columns (env : Env) (tables : List String) :
    List ColumnRecord × List String :=
  (tables.flatMap (fun t => (column_compare_table env t).1),
   tables.flatMap (fun t => (column_compare_table env t).2))

/-- One iteration of the `for table in common_tables` loop of
`compare_row_data` (lines 380-487): primary key from connection 1 only
(line 385); an empty key list skips the table with a warning
(lines 386-388); a failed data fetch skips it (lines 394-396); an
exception inside the comparison skips it (lines 485-487). -/
def row_compare_table (env : Env) (t : String) : List RowRecord × List String :=
  match env.pk1 t with
  | [] => ([], ["Warning: Table " ++ t ++ " has no primary key. Skipping data comparison."])
  | pk =>
    match env.rows1 t, env.rows2 t with
    | some df1, some df2 =>
        match compare_table_rows t pk df1 df2 with
        | some recs => (recs, [])
        | none => ([], ["Error comparing data in table " ++ t])
    | _, _ => ([], ["Skipping data comparison for table " ++ t ++ " due to previous errors"])

/-- `compare_row_data` (lines 365-501) over an explicit processing order
of the common tables: concatenated per-table records and warning/skip
messages. -/
def compare_row_data (env : Env) (tables : List String) :
    List RowRecord × List String :=
  (tables.flatMap (fun t => (row_compare_table env t).1),
   tables.flatMap (fun t => (row_compare_table env t).2))

/-- Spec-side rendering of `changedAspects`, written from §4.2 of the
specification: each differing aspect as a `name(value1 vs value2)` pair,
joined by `", "` in the fixed order Type, Null, Key, Default, Extra,
with defaults compared as normalized strings. -/
def spec_changedAspects (c1 c2 : Col) : String :=
  String.intercalate ", "
    (List.filterMap (fun p => if p.1 then some p.2 else none)
      [(c1.type != c2.type, "Type(" ++ c1.type ++ " vs " ++ c2.type ++ ")"),
       (c1.null != c2.null, "Null(" ++ c1.null ++ " vs " ++ c2.null ++ ")"),
       (c1.key != c2.key, "Key(" ++ c1.key ++ " vs " ++ c2.key ++ ")"),
       (strDefault c1.default != strDefault c2.default,
         "Default(" ++ strDefault c1.default ++ " vs " ++ strDefault c2.default ++ ")"),
       (c1.extra != c2.extra, "Extra(" ++ c1.extra ++ " vs " ++ c2.extra ++ ")")])

/-- The `email` column of the spec's scenario as instance 1 sees it:
VARCHAR(255), nullable. -/
def emailCol1 : Col := ⟨"email", "varchar(255)", "YES", "", none, ""⟩

/-- The `email` column of the spec's scenario as instance 2 sees it:
VARCHAR(100), not nullable. -/
def emailCol2 : Col := ⟨"email", "varchar(100)", "NO", "", none, ""⟩

/-- A two-table environment in which both tables "a" and "b" carry one
column whose type differs between the instances; used to exhibit the
dependence of the record order on the set iteration order. -/
def envTwoTables : Env :=
  { schema1 := fun t =>
      if t = "a" ∨ t = "b" then some [⟨"x", "int", "YES", "", none, ""⟩] else none,
    schema2 := fun t =>
      if t = "a" ∨ t = "b" then some [⟨"x", "bigint", "YES", "", none, ""⟩] else none,
    pk1 := fun _ => ["id"],
    pk2 := fun _ => ["id"],
    rows1 := fun t =>
      if t = "a" ∨ t = "b" then
        some ⟨["id", "v"], [[("id", Value.vint 1), ("v", Value.vint 7)]]⟩
      else none,
    rows2 := fun t =>
      if t = "a" ∨ t = "b" then
        some ⟨["id", "v"], [[("id", Value.vint 1), ("v", Value.vint 8)]]⟩
      else none }

/-- Environment of the spec's `logs` scenario: every table reports an
empty primary key on instance 1. -/
def envNoPk : Env :=
  { schema1 := fun _ => none, schema2 := fun _ => none,
    pk1 := fun _ => [], pk2 := fun _ => [],
    rows1 := fun _ => none, rows2 := fun _ => none }

/-- The spec's `orders` scenario, instance 1: primary key `id`, one row
with `id = 1` and `status = "paid"`. -/
def dfOrders1 : DataFrame :=
  ⟨["id", "status"], [[("id", Value.vint 1), ("status", Value.vstr "paid")]]⟩

/-- The spec's `orders` scenario, instance 2: the same key with
`status = "pending"`. -/
def dfOrders2 : DataFrame :=
  ⟨["id", "status"], [[("id", Value.vint 1), ("status", Value.vstr "pending")]]⟩

/-- C5: for all table-name sets of the two instances, the three groups
computed by `compare_schemas` — only in instance 1, only in instance 2,
and common — are pairwise disjoint and their union is exactly the union
of the two sets, so no table name appears in more than one group. -/
theorem table_sets_partition (tables1 tables2 : Finset String) :
    only_in_instance1 tables1 tables2 ∪ only_in_instance2 tables1 tables2
        ∪ common_tables tables1 tables2 = tables1 ∪ tables2
      ∧ Disjoint (only_in_instance1 tables1 tables2) (only_in_instance2 tables1 tables2)
      ∧ Disjoint (only_in_instance1 tables1 tables2) (common_tables tables1 tables2)
      ∧ Disjoint (only_in_instance2 tables1 tables2) (common_tables tables1 tables2) := by
  refine ⟨?_, ?_, ?_, ?_⟩
  · ext x
    simp only [only_in_instance1, only_in_instance2, common_tables, Finset.mem_union,
      Finset.mem_sdiff, Finset.mem_inter]
    tauto
  · rw [Finset.disjoint_left]
    intro x hx hx2
    simp only [only_in_instance1, only_in_instance2, Finset.mem_sdiff] at hx hx2
    exact hx.2 hx2.1
  · rw [Finset.disjoint_left]
    intro x hx hx2
    simp only [only_in_instance1, common_tables, Finset.mem_sdiff, Finset.mem_inter]
      at hx hx2
    exact hx.2 hx2.2
  · rw [Finset.disjoint_left]
    intro x hx hx2
    simp only [only_in_instance2, common_tables, Finset.mem_sdiff, Finset.mem_inter]
      at hx hx2
    exact hx.2 hx2.1

/-- C7: for all table-name sets of the two instances, the table-level
record sequence consists of three blocks in order — tables only in
instance 1, tables only in instance 2, common tables — each internally
sorted alphabetically (strictly, since each group is a set), and the
presence markers identify the blocks. -/
theorem table_records_order (tables1 tables2 : Finset String) :
    ∃ r1 r2 r3 : List TableRecord,
      schema_report tables1 tables2 = r1 ++ r2 ++ r3
        ∧ List.Sorted (· < ·) (r1.map TableRecord.table)
        ∧ List.Sorted (· < ·) (r2.map TableRecord.table)
        ∧ List.Sorted (· < ·) (r3.map TableRecord.table)
        ∧ (r1.map TableRecord.table).toFinset = only_in_instance1 tables1 tables2
        ∧ (r2.map TableRecord.table).toFinset = only_in_instance2 tables1 tables2
        ∧ (r3.map TableRecord.table).toFinset = common_tables tables1 tables2
        ∧ (∀ rec ∈ r1, rec.inst1 = "Present" ∧ rec.inst2 = "Missing")
        ∧ (∀ rec ∈ r2, rec.inst1 = "Missing" ∧ rec.inst2 = "Present")
        ∧ (∀ rec ∈ r3, rec.inst1 = "Present" ∧ rec.inst2 = "Present") := by
  by_cases hempty : tables1 = ∅ ∧ tables2 = ∅
  · refine ⟨[], [], [], ?_⟩
    simp [schema_report, hempty, only_in_instance1, only_in_instance2, common_tables,
      hempty.1, hempty.2]
  · refine ⟨((only_in_instance1 tables1 tables2).sort (· ≤ ·)).map tableOnly1Record,
      ((only_in_instance2 tables1 tables2).sort (· ≤ ·)).map tableOnly2Record,
      ((common_tables tables1 tables2).sort (· ≤ ·)).map tableCommonRecord,
      ?_, ?_, ?_, ?_, ?_, ?_, ?_, ?_, ?_, ?_⟩
    · simp [schema_report, hempty]
    · simpa [List.map_map, Function.comp_def, tableOnly1Record]
        using Finset.sort_sorted_lt (only_in_instance1 tables1 tables2)
    · simpa [List.map_map, Function.comp_def, tableOnly2Record]
        using Finset.sort_sorted_lt (only_in_instance2 tables1 tables2)
    · simpa [List.map_map, Function.comp_def, tableCommonRecord]
        using Finset.sort_sorted_lt (common_tables tables1 tables2)
    · simp [List.map_map, Function.comp_def, tableOnly1Record, Finset.sort_toFinset]
    · simp [List.map_map, Function.comp_def, tableOnly2Record, Finset.sort_toFinset]
    · simp [List.map_map, Function.comp_def, tableCommonRecord, Finset.sort_toFinset]
    · intro rec hrec
      simp only [List.mem_map] at hrec
      obtain ⟨t, -, rfl⟩ := hrec
      exact ⟨rfl, rfl⟩
    · intro rec hrec
      simp only [List.mem_map] at hrec
      obtain ⟨t, -, rfl⟩ := hrec
      exact ⟨rfl, rfl⟩
    · intro rec hrec
      simp only [List.mem_map] at hrec
      obtain ⟨t, -, rfl⟩ := hrec
      exact ⟨rfl, rfl⟩

/-- A descriptor never differs from itself: all five attribute
comparisons of lines 314-323 come back equal. -/
theorem columnDifferences_self (c : Col) : columnDifferences c c = [] := by
  simp [columnDifferences]

/-- The foldl building `colDict` only returns descriptors from the list
(or the accumulator), and only ones whose field is the looked-up name. -/
theorem colDict_foldl_eq_some (cols : List Col) (acc : Option Col) (c : String) (col : Col)
    (h : cols.foldl (fun acc x => if x.field = c then some x else acc) acc = some col) :
    (col ∈ cols ∧ col.field = c) ∨ acc = some col := by
  induction cols generalizing acc with
  | nil => right; exact h
  | cons x xs ih =>
    simp only [List.foldl_cons] at h
    rcases ih _ h with h1 | h2
    · exact Or.inl ⟨List.mem_cons_of_mem _ h1.1, h1.2⟩
    · by_cases hx : x.field = c
      · rw [if_pos hx] at h2
        cases h2
        exact Or.inl ⟨List.mem_cons_self _ _, hx⟩
      · rw [if_neg hx] at h2
        exact Or.inr h2

/-- `colDict cols c` returns a descriptor of `cols` whose field is `c`. -/
theorem colDict_eq_some {cols : List Col} {c : String} {col : Col}
    (h : colDict cols c = some col) : col ∈ cols ∧ col.field = c := by
  rcases colDict_foldl_eq_some cols none c col h with h1 | h2
  · exact h1
  · cases h2

/-- The report of a single common column name: when both lists hold one
descriptor with the same field, the report is empty or the single
"Different" record, according to the attribute comparisons. -/
theorem table_column_report_pair (t : String) (c1 c2 : Col) (hf : c1.field = c2.field) :
    table_column_report t [c1] [c2]
      = if columnDifferences c1 c2 = [] then [] else [colDiffRecord t c1.field c1 c2] := by
  simp only [table_column_report, List.map_cons, List.map_nil, List.cons_append,
    List.nil_append]
  rw [← hf]
  rw [List.dedup_cons_of_mem (List.mem_singleton_self c1.field)]
  have hsort : List.insertionSort (· ≤ ·) (List.dedup [c1.field]) = [c1.field] := by
    simp [List.dedup_cons_of_not_mem, List.insertionSort, List.orderedInsert]
  rw [hsort]
  have hd1 : colDict [c1] c1.field = some c1 := by simp [colDict]
  have hd2 : colDict [c2] c1.field = some c2 := by simp [colDict, hf]
  simp only [List.flatMap_cons, List.flatMap_nil, List.append_nil, hd1, hd2]
  rfl

/-- C8: the Column Comparator emits zero records for a common table whose
column descriptors are identical on both instances, and every record it
does emit is for a column name that is absent on one side or whose two
descriptors differ in at least one attribute. -/
theorem identical_columns_no_records (t : String) (cols1 cols2 : List Col) :
    (cols1 = cols2 → table_column_report t cols1 cols2 = [])
      ∧ ∀ r ∈ table_column_report t cols1 cols2,
          (∃ c1, colDict cols1 r.column = some c1 ∧ colDict cols2 r.column = none)
          ∨ (∃ c2, colDict cols1 r.column = none ∧ colDict cols2 r.column = some c2)
          ∨ (∃ c1 c2, colDict cols1 r.column = some c1 ∧ colDict cols2 r.column = some c2
              ∧ c1 ≠ c2) := by
  constructor
  · intro h
    subst h
    simp only [table_column_report, List.flatMap_eq_nil_iff]
    intro c _
    rcases hcd : colDict cols1 c with _ | col
    · simp [compareColumn]
    · simp [compareColumn, columnDifferences_self]
  · intro r hr
    simp only [table_column_report, List.mem_flatMap] at hr
    obtain ⟨c, -, hr⟩ := hr
    rcases h1 : colDict cols1 c with _ | c1 <;> rcases h2 : colDict cols2 c with _ | c2 <;>
      rw [h1, h2] at hr
    · simp [compareColumn] at hr
    · simp only [compareColumn, List.mem_singleton] at hr
      subst hr
      exact Or.inr (Or.inl ⟨c2, h1, h2⟩)
    · simp only [compareColumn, List.mem_singleton] at hr
      subst hr
      exact Or.inl ⟨c1, h1, h2⟩
    · simp only [compareColumn] at hr
      by_cases hd : columnDifferences c1 c2 = []
      · simp [hd] at hr
      · rw [if_neg hd] at hr
        simp only [List.mem_singleton] at hr
        subst hr
        refine Or.inr (Or.inr ⟨c1, c2, h1, h2, ?_⟩)
        intro heq
        subst heq
        exact hd (columnDifferences_self c1)

/-- C1 counterexample: two descriptors of column "c" that agree in every
attribute except the default — a null default on instance 1 and the
textual string "NULL" on instance 2 — and for which the comparator does
emit a record, with the aspect text "Default(None vs NULL)". -/
theorem default_null_encoding_cex :
    table_column_report "t"
        [⟨"c", "int", "YES", "", none, ""⟩]
        [⟨"c", "int", "YES", "", some "NULL", ""⟩] ≠ []
      ∧ (table_column_report "t"
          [⟨"c", "int", "YES", "", none, ""⟩]
          [⟨"c", "int", "YES", "", some "NULL", ""⟩]).map ColumnRecord.difference
        = ["Default(None vs NULL)"] :=
  ⟨by decide, by decide⟩

/-- C1 (amended): for two descriptors of the same column name that agree
on type, nullability, key role and extra, no record is emitted exactly
when the Python `str(...)` renderings of the two defaults coincide
(`str(None)` is the string "None"); hence a null default versus the
textual string "None" is silent, while a null default versus the textual
string "NULL" is reported. -/
theorem default_compared_via_str (t : String) (c1 c2 : Col)
    (hf : c1.field = c2.field) (ht : c1.type = c2.type) (hn : c1.null = c2.null)
    (hk : c1.key = c2.key) (he : c1.extra = c2.extra) :
    table_column_report t [c1] [c2] = []
      ↔ strDefault c1.default = strDefault c2.default := by
  rw [table_column_report_pair t c1 c2 hf]
  have hdiff : columnDifferences c1 c2
      = if strDefault c1.default ≠ strDefault c2.default then
          ["Default(" ++ strDefault c1.default ++ " vs " ++ strDefault c2.default ++ ")"]
        else [] := by
    simp [columnDifferences, ht, hn, hk, he]
  by_cases hd : strDefault c1.default = strDefault c2.default
  · simp [hdiff, hd]
  · simp [hdiff, hd]

/-- C1 witness: a null default versus the textual string "None" — both
"no default" encodings whose `str(...)` renderings agree — yields no
record. -/
theorem default_compared_via_str_witness :
    table_column_report "t"
        [⟨"c", "int", "YES", "", none, ""⟩]
        [⟨"c", "int", "YES", "", some "None", ""⟩] = [] :=
  (default_compared_via_str "t"
      ⟨"c", "int", "YES", "", none, ""⟩
      ⟨"c", "int", "YES", "", some "None", ""⟩
      rfl rfl rfl rfl rfl).mpr (by decide)

set_option maxHeartbeats 1000000 in
/-- Refinement of the `Difference` text: joining the code's `differences`
list with ", " gives exactly the spec-side `changedAspects` rendering
(each differing aspect in the fixed order Type, Null, Key, Default,
Extra). -/
theorem columnDifferences_spec (c1 c2 : Col) :
    String.intercalate ", " (columnDifferences c1 c2) = spec_changedAspects c1 c2 := by
  unfold columnDifferences spec_changedAspects
  by_cases h1 : c1.type = c2.type <;> by_cases h2 : c1.null = c2.null <;>
    by_cases h3 : c1.key = c2.key <;>
    by_cases h4 : strDefault c1.default = strDefault c2.default <;>
    by_cases h5 : c1.extra = c2.extra <;>
    simp [h1, h2, h3, h4, h5, List.filterMap_cons]

/-- C4 counterexample: the spec scenario (`email` VARCHAR(255) NULL on
instance 1, VARCHAR(100) NOT NULL on instance 2) produces the aspect
text "Type(varchar(255) vs varchar(100)), Null(YES vs NO)" — the code
labels nullability `Null`, not `Nullable`, so the claimed string is not
the emitted one. -/
theorem changed_aspects_scenario_cex :
    (table_column_report "users" [emailCol1] [emailCol2]).map ColumnRecord.difference
        = ["Type(varchar(255) vs varchar(100)), Null(YES vs NO)"]
      ∧ "Type(varchar(255) vs varchar(100)), Null(YES vs NO)"
          ≠ "Type(varchar(255) vs varchar(100)), Nullable(YES vs NO)" :=
  ⟨by decide, by decide⟩

/-- C4 (amended): a column present on both instances with at least one
differing attribute yields exactly one record, whose aspect text lists
each differing aspect as a `name(value1 vs value2)` pair joined in the
fixed order Type, Null, Key, Default, Extra (the code's label for
nullability is `Null`): it equals the spec-side `spec_changedAspects`
rendering; the scenario's string is
"Type(varchar(255) vs varchar(100)), Null(YES vs NO)". -/
theorem changed_aspects_spec (t : String) (c1 c2 : Col)
    (hf : c1.field = c2.field) (hd : columnDifferences c1 c2 ≠ []) :
    table_column_report t [c1] [c2] = [colDiffRecord t c1.field c1 c2]
      ∧ (colDiffRecord t c1.field c1 c2).difference = spec_changedAspects c1 c2 := by
  constructor
  · rw [table_column_report_pair t c1 c2 hf, if_neg hd]
  · exact columnDifferences_spec c1 c2

/-- C4 witness: the theorem applied to the spec scenario, whose aspect
text evaluates to "Type(varchar(255) vs varchar(100)), Null(YES vs NO)". -/
theorem changed_aspects_spec_witness :
    (table_column_report "users" [emailCol1] [emailCol2]
          = [colDiffRecord "users" "email" emailCol1 emailCol2]
        ∧ (colDiffRecord "users" "email" emailCol1 emailCol2).difference
          = spec_changedAspects emailCol1 emailCol2)
      ∧ spec_changedAspects emailCol1 emailCol2
        = "Type(varchar(255) vs varchar(100)), Null(YES vs NO)" :=
  ⟨changed_aspects_spec "users" emailCol1 emailCol2 (by decide) (by decide), by decide⟩

/-- A table whose per-table contribution is empty adds nothing to the
concatenated output: dropping it from the processing order leaves the
result unchanged. -/
theorem flatMap_filter_of_nil {α : Type} (f : String → List α) (l : List String)
    (t : String) (h : f t = []) :
    l.flatMap f = (l.filter (fun x => x != t)).flatMap f := by
  induction l with
  | nil => rfl
  | cons x xs ih =>
    by_cases hx : x = t
    · subst hx
      simp [List.filter_cons, h, ih]
    · simp [List.filter_cons, hx, ih]

/-- Every record produced for one column name carries the table and
column it was produced for. -/
theorem compareColumn_table (t c : String) (o1 o2 : Option Col) (r : ColumnRecord)
    (hr : r ∈ compareColumn t c o1 o2) : r.table = t ∧ r.column = c := by
  rcases o1 with _ | c1 <;> rcases o2 with _ | c2 <;> simp only [compareColumn] at hr
  · cases hr
  · rw [List.mem_singleton] at hr
    subst hr
    exact ⟨rfl, rfl⟩
  · rw [List.mem_singleton] at hr
    subst hr
    exact ⟨rfl, rfl⟩
  · by_cases hd : columnDifferences c1 c2 = []
    · rw [if_pos hd] at hr
      cases hr
    · rw [if_neg hd, List.mem_singleton] at hr
      subst hr
      exact ⟨rfl, rfl⟩

/-- Every record of a table's column report names that table. -/
theorem table_column_report_table (t : String) (cols1 cols2 : List Col) (r : ColumnRecord)
    (hr : r ∈ table_column_report t cols1 cols2) : r.table = t := by
  simp only [table_column_report, List.mem_flatMap] at hr
  obtain ⟨c, -, hr⟩ := hr
  exact (compareColumn_table t c _ _ r hr).1

/-- Every column record contributed by one loop iteration names the
iteration's table. -/
theorem column_compare_table_table (env : Env) (t : String) (r : ColumnRecord)
    (hr : r ∈ (column_compare_table env t).1) : r.table = t := by
  rcases h1 : env.schema1 t with _ | cols1 <;> rcases h2 : env.schema2 t with _ | cols2 <;>
    simp only [column_compare_table, h1, h2] at hr
  · exact absurd hr (by simp)
  · exact absurd hr (by simp)
  · exact absurd hr (by simp)
  · exact table_column_report_table t cols1 cols2 r hr

/-- Every row record produced for one table names that table. -/
theorem compare_table_rows_table (t : String) (pk : List String) (df1 df2 : DataFrame)
    (recs : List RowRecord) (h : compare_table_rows t pk df1 df2 = some recs)
    (r : RowRecord) (hr : r ∈ recs) : r.table = t := by
  unfold compare_table_rows at h
  by_cases hm : mergeOk pk df1 df2 = true
  · rw [if_pos hm] at h
    injection h with h
    subst h
    simp only [List.mem_append, List.mem_map, List.mem_flatMap] at hr
    rcases hr with (⟨row, -, rfl⟩ | ⟨row, -, rfl⟩) | ⟨pr, -, hr⟩
    · rfl
    · rfl
    · simp only [matchedRowRecords, List.mem_filterMap] at hr
      obtain ⟨c, -, hc⟩ := hr
      by_cases hcd : cellDiffers (rowGet pr.1 c) (rowGet pr.2 c) = true
      · rw [if_pos hcd] at hc
        injection hc with hc
        subst hc
        rfl
      · rw [if_neg hcd] at hc
        cases hc
  · rw [if_neg hm] at h
    cases h

/-- Every row record contributed by one loop iteration names the
iteration's table. -/
theorem row_compare_table_table (env : Env) (t : String) (r : RowRecord)
    (hr : r ∈ (row_compare_table env t).1) : r.table = t := by
  rcases hpk : env.pk1 t with _ | ⟨p, ps⟩ <;>
    simp only [row_compare_table, hpk] at hr
  · exact absurd hr (by simp)
  · rcases h1 : env.rows1 t with _ | df1 <;> rcases h2 : env.rows2 t with _ | df2 <;>
      simp only [h1, h2] at hr
    · exact absurd hr (by simp)
    · exact absurd hr (by simp)
    · exact absurd hr (by simp)
    · rcases hc : compare_table_rows t (p :: ps) df1 df2 with _ | recs <;>
        simp only [hc] at hr
      · exact absurd hr (by simp)
      · exact compare_table_rows_table t (p :: ps) df1 df2 recs hc r hr

/-- C10: the row comparison consults only instance 1's primary-key
metadata — replacing the answers instance 2 would give changes neither
the records nor the messages of the row stage, so the join is always on
instance 1's key columns and a primary-key mismatch between the two
instances is never detected or reported. -/
theorem pk2_never_consulted (env : Env) (f : String → List String) (tables : List String) :
    compare_row_data { env with pk2 := f } tables = compare_row_data env tables := rfl

/-- C3: a common table whose primary-key list is empty yields the
explicit console warning naming it — an outcome distinct from "no
differences" and observable by callers — contributes zero row records,
and does not abort the run: the records are exactly those obtained with
the table left out of the processing order. -/
theorem no_pk_warning_skip (env : Env) (tables : List String) (t : String)
    (hmem : t ∈ tables) (hpk : env.pk1 t = []) :
    ("Warning: Table " ++ t ++ " has no primary key. Skipping data comparison.")
        ∈ (compare_row_data env tables).2
      ∧ (∀ r ∈ (compare_row_data env tables).1, r.table ≠ t)
      ∧ (compare_row_data env tables).1
        = (compare_row_data env (tables.filter (fun x => x != t))).1 := by
  have hnil : (row_compare_table env t).1 = [] := by
    simp [row_compare_table, hpk]
  refine ⟨?_, ?_, ?_⟩
  · exact List.mem_flatMap_of_mem hmem (by simp [row_compare_table, hpk])
  · intro r hr heq
    obtain ⟨t', -, hr⟩ := List.mem_flatMap.1 hr
    rw [row_compare_table_table env t' r hr] at heq
    subst heq
    rw [hnil] at hr
    cases hr
  · exact flatMap_filter_of_nil _ tables t hnil

/-- C3 witness: the `logs` scenario — table `logs` has no primary key,
so the warning is logged, the record list is empty, and the run
completes. -/
theorem no_pk_warning_skip_witness :
    ("Warning: Table logs has no primary key. Skipping data comparison.")
        ∈ (compare_row_data envNoPk ["logs"]).2
      ∧ (∀ r ∈ (compare_row_data envNoPk ["logs"]).1, r.table ≠ "logs")
      ∧ (compare_row_data envNoPk ["logs"]).1
        = (compare_row_data envNoPk (["logs"].filter (fun x => x != "logs"))).1 :=
  no_pk_warning_skip envNoPk ["logs"] "logs" (by decide) rfl

/-- C9: fetch failures are isolated to the affected table and stage.  If
a table's schema fetch fails on either connection, the column stage logs
a skip message naming it, that table contributes no column records, and
the column records are exactly those obtained with the table left out;
if a table's row fetch fails on either connection (its primary key
having been found), the row stage logs a skip message naming it, the
table contributes no row records, and the row records are exactly those
obtained with the table left out.  Both stages process every other
table of the order either way. -/
theorem fetch_error_isolation (env : Env) (tables : List String) (t : String) :
    ((env.schema1 t = none ∨ env.schema2 t = none) → t ∈ tables →
        ("Skipping column comparison for table " ++ t ++ " due to previous errors")
            ∈ (compare_columns env tables).2
          ∧ (∀ r ∈ (compare_columns env tables).1, r.table ≠ t)
          ∧ (compare_columns env tables).1
            = (compare_columns env (tables.filter (fun x => x != t))).1)
      ∧ ((env.rows1 t = none ∨ env.rows2 t = none) → env.pk1 t ≠ [] → t ∈ tables →
          ("Skipping data comparison for table " ++ t ++ " due to previous errors")
              ∈ (compare_row_data env tables).2
            ∧ (∀ r ∈ (compare_row_data env tables).1, r.table ≠ t)
            ∧ (compare_row_data env tables).1
              = (compare_row_data env (tables.filter (fun x => x != t))).1) := by
  constructor
  · intro hs hmem
    have hone : column_compare_table env t
        = ([], ["Skipping column comparison for table " ++ t ++ " due to previous errors"]) := by
      rcases hs with hs | hs
      · simp [column_compare_table, hs]
      · rcases h1 : env.schema1 t with _ | cols1 <;> simp [column_compare_table, h1, hs]
    refine ⟨?_, ?_, ?_⟩
    · exact List.mem_flatMap_of_mem hmem (by rw [hone]; simp)
    · intro r hr heq
      obtain ⟨t', -, hr⟩ := List.mem_flatMap.1 hr
      rw [column_compare_table_table env t' r hr] at heq
      subst heq
      rw [congrArg Prod.fst hone] at hr
      cases hr
    · exact flatMap_filter_of_nil _ tables t (congrArg Prod.fst hone)
  · intro hs hpk hmem
    obtain ⟨p, ps, hps⟩ : ∃ p ps, env.pk1 t = p :: ps := by
      rcases h : env.pk1 t with _ | ⟨p, ps⟩
      · exact absurd h hpk
      · exact ⟨p, ps, rfl⟩
    have hone : row_compare_table env t
        = ([], ["Skipping data comparison for table " ++ t ++ " due to previous errors"]) := by
      rcases hs with hs | hs
      · simp [row_compare_table, hps, hs]
      · rcases h1 : env.rows1 t with _ | df1 <;> simp [row_compare_table, hps, h1, hs]
    refine ⟨?_, ?_, ?_⟩
    · exact List.mem_flatMap_of_mem hmem (by rw [hone]; simp)
    · intro r hr heq
      obtain ⟨t', -, hr⟩ := List.mem_flatMap.1 hr
      rw [row_compare_table_table env t' r hr] at heq
      subst heq
      rw [congrArg Prod.fst hone] at hr
      cases hr
    · exact flatMap_filter_of_nil _ tables t (congrArg Prod.fst hone)

/-- C9 witness: in an environment where every fetch fails (and the
primary key of `logs` is reported as `id`), the table `logs` is skipped
at both stages with the skip messages logged, no records, and unchanged
output without it. -/
theorem fetch_error_isolation_witness :
    (("Skipping column comparison for table logs due to previous errors")
          ∈ (compare_columns
              { envNoPk with pk1 := fun _ => ["id"] } ["logs"]).2
        ∧ (∀ r ∈ (compare_columns
              { envNoPk with pk1 := fun _ => ["id"] } ["logs"]).1, r.table ≠ "logs")
        ∧ (compare_columns { envNoPk with pk1 := fun _ => ["id"] } ["logs"]).1
          = (compare_columns { envNoPk with pk1 := fun _ => ["id"] }
              (["logs"].filter (fun x => x != "logs"))).1)
      ∧ (("Skipping data comparison for table logs due to previous errors")
          ∈ (compare_row_data
              { envNoPk with pk1 := fun _ => ["id"] } ["logs"]).2
        ∧ (∀ r ∈ (compare_row_data
              { envNoPk with pk1 := fun _ => ["id"] } ["logs"]).1, r.table ≠ "logs")
        ∧ (compare_row_data { envNoPk with pk1 := fun _ => ["id"] } ["logs"]).1
          = (compare_row_data { envNoPk with pk1 := fun _ => ["id"] }
              (["logs"].filter (fun x => x != "logs"))).1) :=
  ⟨(fetch_error_isolation { envNoPk with pk1 := fun _ => ["id"] } ["logs"] "logs").1
      (Or.inl rfl) (by decide),
   (fetch_error_isolation { envNoPk with pk1 := fun _ => ["id"] } ["logs"] "logs").2
      (Or.inl rfl) (by decide) (by decide)⟩

/-- C6: for a table whose row comparison completes, (a) every matched
row pair and non-primary-key column whose cell pair differs and is not
both-null yields its "Different Values" record in the output, and
(b) every "Different Values" record of the output arises from some
matched row pair and non-primary-key column whose cell pair differs and
is not both-null (two null/NaN cells are never reported). -/
theorem row_cell_emission (t : String) (pk : List String) (df1 df2 : DataFrame)
    (recs : List RowRecord) (h : compare_table_rows t pk df1 df2 = some recs) :
    (∀ r1 ∈ df1.rows, ∀ r2,
        df2.rows.find? (fun x => rowKey pk x == rowKey pk r1) = some r2 →
          ∀ c ∈ dataColumns pk df1,
            cellDiffers (rowGet r1 c) (rowGet r2 c) = true →
              rowDiffRecord t (rowKey pk r1) c (rowGet r1 c) (rowGet r2 c) ∈ recs)
      ∧ (∀ r ∈ recs, r.status = "Different Values" →
          ∃ r1 r2 c, r1 ∈ df1.rows
            ∧ df2.rows.find? (fun x => rowKey pk x == rowKey pk r1) = some r2
            ∧ c ∈ dataColumns pk df1
            ∧ cellDiffers (rowGet r1 c) (rowGet r2 c) = true
            ∧ r = rowDiffRecord t (rowKey pk r1) c (rowGet r1 c) (rowGet r2 c)) := by
  unfold compare_table_rows at h
  by_cases hm : mergeOk pk df1 df2 = true
  swap
  · rw [if_neg hm] at h
    cases h
  rw [if_pos hm] at h
  injection h with h
  subst h
  constructor
  · intro r1 hr1 r2 hfind c hc hcd
    refine List.mem_append_right _ ?_
    refine List.mem_flatMap_of_mem (a := (r1, r2)) ?_ ?_
    · simp only [matchedPairs, List.mem_filterMap]
      exact ⟨r1, hr1, by rw [hfind]; rfl⟩
    · simp only [matchedRowRecords, List.mem_filterMap]
      exact ⟨c, hc, by rw [if_pos hcd]⟩
  · intro r hr hstatus
    simp only [List.mem_append, List.mem_map, List.mem_flatMap] at hr
    rcases hr with (⟨row, -, rfl⟩ | ⟨row, -, rfl⟩) | ⟨pr, hpr, hr⟩
    · simp [rowOnly1Record] at hstatus
    · simp [rowOnly2Record] at hstatus
    · simp only [matchedPairs, List.mem_filterMap] at hpr
      obtain ⟨r1, hr1, hmap⟩ := hpr
      rcases hfind : df2.rows.find? (fun x => rowKey pk x == rowKey pk r1) with _ | r2 <;>
        rw [hfind] at hmap
      · cases hmap
      · injection hmap with hmap
        subst hmap
        simp only [matchedRowRecords, List.mem_filterMap] at hr
        obtain ⟨c, hc, hite⟩ := hr
        by_cases hcd : cellDiffers (rowGet r1 c) (rowGet r2 c) = true
        · rw [if_pos hcd] at hite
          injection hite with hite
          exact ⟨r1, r2, c, hr1, hfind, hc, hcd, hite.symm⟩
        · rw [if_neg hcd] at hite
          cases hite

/-- C6 witness: the spec's `orders` scenario — key `id = 1`, `status`
"paid" versus "pending" — the differing-value record is emitted. -/
theorem row_cell_emission_witness :
    rowDiffRecord "orders" [Value.vint 1] "status" (Value.vstr "paid") (Value.vstr "pending")
      ∈ [rowDiffRecord "orders" [Value.vint 1] "status"
          (Value.vstr "paid") (Value.vstr "pending")] :=
  (row_cell_emission "orders" ["id"] dfOrders1 dfOrders2
      [rowDiffRecord "orders" [Value.vint 1] "status"
        (Value.vstr "paid") (Value.vstr "pending")] (by decide)).1
    [("id", Value.vint 1), ("status", Value.vstr "paid")] (by decide)
    [("id", Value.vint 1), ("status", Value.vstr "pending")] (by decide)
    "status" (by decide) (by decide)

/-- C2 counterexample: the column and row comparators process the common
tables in the iteration order of a Python set, which is not a function
of the set's contents; enumerating the same two-table set as a-then-b
versus b-then-a yields differently ordered column- and row-record
sequences, so byte-identical output across runs is not guaranteed. -/
theorem iteration_order_cex :
    (["a", "b"].Perm ["b", "a"])
      ∧ (compare_columns envTwoTables ["a", "b"]).1
          ≠ (compare_columns envTwoTables ["b", "a"]).1
      ∧ (compare_row_data envTwoTables ["a", "b"]).1
          ≠ (compare_row_data envTwoTables ["b", "a"]).1 :=
  ⟨List.Perm.swap "b" "a" [], by decide, by decide⟩

/-- C2 (amended): each comparison stage is a pure function of its inputs
and the processing order, so a rerun over unchanged data with the same
set iteration order reproduces the record sequences byte-identically;
across different iteration orders of the same common-table set the
column- and row-record sequences are permutations of each other
(per-table blocks reordered), not necessarily byte-identical. -/
theorem perm_stable_reports (env : Env) (ts1 ts2 : List String) (h : ts1.Perm ts2) :
    ((compare_columns env ts1).1).Perm ((compare_columns env ts2).1)
      ∧ ((compare_row_data env ts1).1).Perm ((compare_row_data env ts2).1) :=
  ⟨h.flatMap_right _, h.flatMap_right _⟩

/-- C2 witness: the two enumerations of the two-table set produce
permutations of each other at both stages. -/
theorem perm_stable_reports_witness :
    ((compare_columns envTwoTables ["a", "b"]).1).Perm
        ((compare_columns envTwoTables ["b", "a"]).1)
      ∧ ((compare_row_data envTwoTables ["a", "b"]).1).Perm
        ((compare_row_data envTwoTables ["b", "a"]).1) :=
  perm_stable_reports envTwoTables ["a", "b"] ["b", "a"] (List.Perm.swap "b" "a" [])
